import Mathlib

/-!
Shallow embedding of the conversational-AI gateway
(`api.py`, `clasess/OpenAIService.py`) and proofs of the specification
claims about it.

Modelling conventions:
* Python floats for sampling parameters are modelled as rationals `ℚ`;
  every comparison the code performs (`0 <= x <= 2`, `0 <= x <= 1`) is
  exact at the values involved.
* A Python exception is modelled as the `Except.error` branch of an
  `Except` result.  The error taxonomy of the spec (§7) names the
  `ValueError` raised by `CompletionConfig.__post_init__`
  `InvalidConfigError` and the `ValueError` raised by
  `MessageHistory.add_message` `InvalidRoleError`; the embedding uses
  those taxonomy names for the corresponding constructors.
* An upstream streaming completion (an async generator) is modelled by
  the finite list of chunks it successfully produces, together with an
  optional error that terminates the iteration after those chunks.
* `datetime.now()` timestamps are irrelevant to every claim and are
  omitted from the `Message` model.
-/

/-- `Role` enum from `OpenAIService.py` (`class Role(str, Enum)`). -/
inductive Role
  | system
  | user
  | assistant
deriving DecidableEq, Repr

/-- The string value of a role, as in `Role.SYSTEM.value` etc. -/
def Role.value : Role → String
  | .system => "system"
  | .user => "user"
  | .assistant => "assistant"

/-- `Message` dataclass from `OpenAIService.py` (timestamp omitted, see header). -/
structure Message where
  role : Role
  content : String
  session_id : Option String
  user_id : String
  tags : List String
deriving DecidableEq, Repr

/-- `MessageHistory` from `OpenAIService.py`: a message list plus a session id. -/
structure MessageHistory where
  messages : List Message
  session_id : String
deriving DecidableEq, Repr

/-- Errors raised by the embedded code, named after the error taxonomy in §7 of the spec. -/
inductive ChatError
  | InvalidRoleError
  | InvalidConfigError (msg : String)
deriving DecidableEq, Repr

/-- The Python `str.lower()` method as used on role strings (`role = role.lower()`),
    mapping each character to lower case (ASCII case mapping; the role
    strings concerned are ASCII). -/
def pyLower (s : String) : String :=
  String.mk (s.data.map Char.toLower)

/-- `Role(role)` construction in `add_message`: the string-to-role conversion,
    defined on exactly the three member values. -/
def roleOfString (s : String) : Option Role :=
  if s = "system" then some Role.system
  else if s = "user" then some Role.user
  else if s = "assistant" then some Role.assistant
  else none

/-- `MessageHistory.add_message` (OpenAIService.py lines 72-99): lowercases the
    role, rejects it unless the lowercased form is one of
    system/user/assistant, otherwise appends a new `Message` and returns it
    (here: the updated history together with the new message). -/
def MessageHistory.add_message (h : MessageHistory) (role content : String)
    (user_id : String) (tags : Option (List String)) :
    Except ChatError (MessageHistory × Message) :=
  match roleOfString (pyLower role) with
  | none => Except.error ChatError.InvalidRoleError
  | some r =>
      let m : Message :=
        { role := r
          content := content
          session_id := some h.session_id
          user_id := user_id
          tags := tags.getD [] }
      Except.ok ({ h with messages := h.messages ++ [m] }, m)

/-- `add_message` as used by the endpoints, where the role is a valid literal
    and the exception branch is unreachable: returns the updated history. -/
def MessageHistory.addMessageD (h : MessageHistory) (role content : String) :
    MessageHistory :=
  match h.add_message role content "" none with
  | Except.ok p => p.1
  | Except.error _ => h

/-- `CompletionConfig` dataclass fields (OpenAIService.py lines 150-155). -/
structure CompletionConfig where
  model : String
  temperature : ℚ
  top_p : ℚ
  stream : Bool
  presence_penalty : ℚ
  frequency_penalty : ℚ
deriving DecidableEq, Repr

/-- Construction of a `CompletionConfig` including `__post_init__` validation
    (lines 157-162): the dataclass constructor runs the checks before the
    object is ever usable, hence before any network call can involve it. -/
def CompletionConfig.make (model : String) (temperature top_p : ℚ)
    (stream : Bool) (presence_penalty frequency_penalty : ℚ) :
    Except ChatError CompletionConfig :=
  if ¬ (0 ≤ temperature ∧ temperature ≤ 2) then
    Except.error (ChatError.InvalidConfigError "Temperature must be between 0 and 2")
  else if ¬ (0 ≤ top_p ∧ top_p ≤ 1) then
    Except.error (ChatError.InvalidConfigError "Top_p must be between 0 and 1")
  else
    Except.ok
      { model := model
        temperature := temperature
        top_p := top_p
        stream := stream
        presence_penalty := presence_penalty
        frequency_penalty := frequency_penalty }

/-- `OpenAIService._stream_response` (lines 266-277): the deltas of the provider are
    an `Option String` each (`delta.content`); the client yields exactly those
    that are not `None`, in order.  Empty strings are NOT filtered here. -/
def OpenAIService.stream_response : List (Option String) → List String
  | [] => []
  | none :: rest => OpenAIService.stream_response rest
  | some c :: rest => c :: OpenAIService.stream_response rest

/-- One framed server-sent event of the streaming relay: `api.py` line 55 emits
    `data: {"chunk": <text>, "session_id": <id>}` per forwarded chunk. -/
structure SSEEvent where
  chunk : String
  session_id : String
deriving DecidableEq, Repr

/-- The `async for` loop of `chat_stream.get_stream` (api.py lines 51-55):
    walks the upstream chunks in arrival order; each truthy (non-empty) chunk
    is both appended to the accumulator list and emitted as one framed event;
    falsy chunks are skipped.  Returns (accumulated chunks, emitted events). -/
def streamLoop (sid : String) : List String → List String × List SSEEvent
  | [] => ([], [])
  | c :: rest =>
      if c ≠ "" then
        let p := streamLoop sid rest
        (c :: p.1, { chunk := c, session_id := sid } :: p.2)
      else streamLoop sid rest

/-- Result of running the streaming relay: the events that reached the
    consumer, the history afterwards, and the error surfaced (if any). -/
structure StreamOutcome where
  events : List SSEEvent
  history : MessageHistory
  error : Option String
deriving DecidableEq, Repr

/-- `chat_stream.get_stream` (api.py lines 46-60) run against an upstream that
    produces `upstream` and then either terminates normally
    (`failure = none`) or raises (`failure = some e`).  On normal exhaustion
    the accumulated chunks are joined and, if the join is non-empty, appended
    to the history as one assistant message; on failure the loop is aborted by
    the exception, so the persistence code after the loop never runs and the
    history is left untouched. -/
def get_stream (hist : MessageHistory) (upstream : List String)
    (failure : Option String) : StreamOutcome :=
  let p := streamLoop hist.session_id upstream
  match failure with
  | some e => { events := p.2, history := hist, error := some e }
  | none =>
      let complete_response := String.join p.1
      if complete_response ≠ "" then
        { events := p.2
          history := hist.addMessageD "assistant" complete_response
          error := none }
      else
        { events := p.2, history := hist, error := none }

/-- The in-memory session registry `conversations = {}` of `api.py` (line 19),
    modelled as an association list from session id to history. -/
def Store : Type := List (String × MessageHistory)

/-- Dictionary lookup `conversations[sid]` / membership `sid in conversations`. -/
def Store.find (store : Store) (sid : String) : Option MessageHistory :=
  match store with
  | [] => none
  | (k, h) :: rest => if k = sid then some h else Store.find rest sid

/-- Dictionary assignment `conversations[sid] = h` (overwrites an existing
    entry, otherwise adds one). -/
def Store.set (store : Store) (sid : String) (h : MessageHistory) : Store :=
  match store with
  | [] => [(sid, h)]
  | (k, h0) :: rest =>
      if k = sid then (sid, h) :: rest else (k, h0) :: Store.set rest sid h

/-- The system persona text seeded into every new conversation (api.py 39, 109). -/
def systemPrompt : String :=
  "You are a helpful AI assistant. Be concise, friendly, and provide accurate information."

/-- Creation of a new conversation in `chat` / `chat_stream` (api.py 104-110):
    a fresh `MessageHistory` with the freshly generated uuid `sid`, seeded
    with the system persona message. -/
def freshHistory (sid : String) : MessageHistory :=
  MessageHistory.addMessageD { messages := [], session_id := sid } "system" systemPrompt

/-- The get-or-create step shared by both endpoints (api.py 101-111): a truthy
    `session_id` that is a key of the store resolves to the stored history
    (keyed by the id the caller sent); anything else creates, seeds and
    registers a fresh history under the fresh uuid `newSid`.  Returns the
    dictionary key of the history together with the history and the store
    after registration. -/
def getOrCreate (store : Store) (session_id : Option String) (newSid : String) :
    String × MessageHistory × Store :=
  match session_id with
  | some sid =>
      if sid ≠ "" then
        match store.find sid with
        | some h => (sid, h, store)
        | none => (newSid, freshHistory newSid, store.set newSid (freshHistory newSid))
      else (newSid, freshHistory newSid, store.set newSid (freshHistory newSid))
  | none => (newSid, freshHistory newSid, store.set newSid (freshHistory newSid))

/-- Result of a `/chat` request: `ok` is the 200 body
    `{response, session_id}`, `badRequest` the 400 body `{error}`. -/
inductive ChatResult
  | ok (response : String) (session_id : String)
  | badRequest (error : String)
deriving DecidableEq, Repr

/-- HTTP status code of a `/chat` result. -/
def ChatResult.status : ChatResult → Nat
  | .ok _ _ => 200
  | .badRequest _ => 400

/-- The synchronous `/chat` endpoint (api.py lines 91-139).  `message` and
    `session_id` are the request-body fields (`none` = absent); `newSid` is
    the uuid that would be generated for a fresh session; `resp` is the text
    the upstream completion returns for this conversation.  A falsy `message`
    is rejected with 400 before the store is touched.  Otherwise the session
    is resolved/created, the user message appended, the completion obtained,
    and the assistant response appended unconditionally.  Returns the HTTP
    result and the store after the request (the store holds the history
    object by reference, so its entry reflects all appends). -/
def chat (store : Store) (message session_id : Option String)
    (newSid resp : String) : ChatResult × Store :=
  match message with
  | none => (ChatResult.badRequest "Message is required", store)
  | some m =>
      if m = "" then (ChatResult.badRequest "Message is required", store)
      else
        let khs := getOrCreate store session_id newSid
        let hist1 := khs.2.1.addMessageD "user" m
        let hist2 := hist1.addMessageD "assistant" resp
        (ChatResult.ok resp khs.2.1.session_id, khs.2.2.set khs.1 hist2)

/-- Result of `GET /conversations/<sid>`: the 200 body with the ordered
    role/content pairs, or the 404 `{error}` body. -/
inductive ConversationResult
  | ok (session_id : String) (messages : List (String × String))
  | notFound (error : String)
deriving DecidableEq, Repr

/-- `get_conversation` (api.py lines 141-153): 404 for an unknown session id,
    otherwise the ordered `{role: msg.role.value, content: msg.content}`
    pairs of the stored history. -/
def get_conversation (store : Store) (sid : String) : ConversationResult :=
  match store.find sid with
  | none => ConversationResult.notFound "Conversation not found"
  | some h =>
      ConversationResult.ok sid (h.messages.map fun m => (m.role.value, m.content))

lemma streamLoop_spec (sid : String) (l : List String) :
    streamLoop sid l =
      (l.filter (fun c => c ≠ ""),
       (l.filter (fun c => c ≠ "")).map fun c => { chunk := c, session_id := sid }) := by
  induction l with
  | nil => rfl
  | cons c rest ih =>
      by_cases hc : c = ""
      · subst hc
        simp [streamLoop, ih]
      · simp [streamLoop, hc, ih]

lemma joinCons (c : String) (l : List String) :
    String.join (c :: l) = c ++ String.join l := by
  apply String.ext
  simp [String.join_eq, String.data_append]

lemma appendLeftNeEmpty (c x : String) (hc : c ≠ "") : c ++ x ≠ "" := by
  intro hcontra
  apply hc
  apply String.ext
  have hd := congrArg String.data hcontra
  rw [String.data_append] at hd
  rcases List.append_eq_nil.mp hd with ⟨h1, _⟩
  simpa using h1

lemma joinNeEmpty (l : List String) (h1 : ∀ c ∈ l, c ≠ "") (h2 : l ≠ []) :
    String.join l ≠ "" := by
  cases l with
  | nil => exact absurd rfl h2
  | cons c rest =>
      rw [joinCons]
      exact appendLeftNeEmpty c (String.join rest) (h1 c (by simp))

lemma find_set_self (s : Store) (k : String) (h : MessageHistory) :
    Store.find (Store.set s k h) k = some h := by
  induction s with
  | nil => simp [Store.set, Store.find]
  | cons kv rest ih =>
      obtain ⟨k0, h0⟩ := kv
      by_cases hk : k0 = k
      · simp [Store.set, Store.find, hk]
      · simp [Store.set, Store.find, hk, ih]

lemma addMessageD_system (h : MessageHistory) (c : String) :
    h.addMessageD "system" c =
      { messages := h.messages ++
          [{ role := Role.system, content := c, session_id := some h.session_id,
             user_id := "", tags := [] }],
        session_id := h.session_id } := rfl

lemma addMessageD_user (h : MessageHistory) (c : String) :
    h.addMessageD "user" c =
      { messages := h.messages ++
          [{ role := Role.user, content := c, session_id := some h.session_id,
             user_id := "", tags := [] }],
        session_id := h.session_id } := rfl

lemma addMessageD_assistant (h : MessageHistory) (c : String) :
    h.addMessageD "assistant" c =
      { messages := h.messages ++
          [{ role := Role.assistant, content := c, session_id := some h.session_id,
             user_id := "", tags := [] }],
        session_id := h.session_id } := rfl

lemma streamLoop_all_empty (sid : String) (l : List String) (h : ∀ c ∈ l, c = "") :
    streamLoop sid l = ([], []) := by
  induction l with
  | nil => rfl
  | cons c rest ih =>
      have hc : c = "" := h c (by simp)
      subst hc
      simp only [streamLoop, ne_eq, not_true_eq_false, if_false]
      exact ih fun c hc => h c (by simp [hc])

lemma get_stream_events (hist : MessageHistory) (up : List String) (f : Option String) :
    (get_stream hist up f).events = (streamLoop hist.session_id up).2 := by
  cases f with
  | none =>
      simp only [get_stream]
      split <;> rfl
  | some e => rfl

lemma get_stream_all_empty_history (hist : MessageHistory) (upstream : List String)
    (h : ∀ c ∈ upstream, c = "") : (get_stream hist upstream none).history = hist := by
  simp [get_stream, streamLoop_all_empty hist.session_id upstream h, String.join]

lemma get_conversation_eq (store : Store) (sid : String) (h : MessageHistory)
    (hfind : store.find sid = some h) :
    get_conversation store sid
      = ConversationResult.ok sid (h.messages.map fun m => (m.role.value, m.content)) := by
  unfold get_conversation
  rw [hfind]

lemma get_stream_some_text (hist : MessageHistory) (up : List String)
    (hj : String.join (streamLoop hist.session_id up).1 ≠ "") :
    get_stream hist up none =
      { events := (streamLoop hist.session_id up).2,
        history := hist.addMessageD "assistant" (String.join (streamLoop hist.session_id up).1),
        error := none } := by
  simp [get_stream, hj]

/-- Claim C1: for a streaming completion whose upstream produces the finite
chunk sequence `upstream` with every chunk non-empty (and at least one chunk),
the relay emits exactly one framed event per chunk, with the chunk texts in
arrival order and each event carrying the session identifier, and the single
assistant message appended to the history at exhaustion has content equal to
the concatenation of all chunks. -/
theorem relay_emits_all_chunks_in_order_and_persists_concatenation
    (hist : MessageHistory) (upstream : List String)
    (h1 : ∀ c ∈ upstream, c ≠ "") (h2 : upstream ≠ []) :
    (get_stream hist upstream none).events
        = upstream.map (fun c => { chunk := c, session_id := hist.session_id })
      ∧ (get_stream hist upstream none).history.messages
        = hist.messages ++
            [{ role := Role.assistant, content := String.join upstream,
               session_id := some hist.session_id, user_id := "", tags := [] }]
      ∧ (get_stream hist upstream none).error = none := by
  have hfilter : upstream.filter (fun c => c ≠ "") = upstream :=
    List.filter_eq_self.mpr (by simpa using h1)
  have hloop := streamLoop_spec hist.session_id upstream
  rw [hfilter] at hloop
  have hj : String.join (streamLoop hist.session_id upstream).1 ≠ "" := by
    rw [hloop]
    exact joinNeEmpty upstream h1 h2
  rw [get_stream_some_text hist upstream hj, hloop, addMessageD_assistant]
  exact ⟨rfl, rfl, rfl⟩

/-- Claim C2: if the upstream chunk stream fails after producing some chunks,
the relay emits only the events for the chunks produced before the failure,
surfaces the error, and appends no assistant message: the history after the
failure equals the history as it was when the relay started (i.e. right after
the user message was appended), so the partial accumulated text is discarded. -/
theorem relay_failure_discards_partial_text
    (hist : MessageHistory) (upstream : List String) (err : String) :
    (get_stream hist upstream (some err)).history = hist
      ∧ (get_stream hist upstream (some err)).error = some err
      ∧ (get_stream hist upstream (some err)).events
        = (upstream.filter fun c => c ≠ "").map
            (fun c => { chunk := c, session_id := hist.session_id }) := by
  refine ⟨rfl, rfl, ?_⟩
  rw [get_stream_events, streamLoop_spec]

/-- Claim C5: if the streaming completion yields zero chunks, or only chunks
whose text is empty (so the accumulated text is empty), then no event is
emitted to the consumer and no assistant message is appended: the history is
left exactly as it was after the user message was appended. -/
theorem relay_empty_stream_emits_nothing_persists_nothing
    (hist : MessageHistory) (upstream : List String)
    (h : ∀ c ∈ upstream, c = "") :
    (get_stream hist upstream none).events = []
      ∧ (get_stream hist upstream none).history = hist := by
  constructor
  · rw [get_stream_events, streamLoop_all_empty hist.session_id upstream h]
  · exact get_stream_all_empty_history hist upstream h

/-- Witness for claim C5 at the concrete upstream `[""]`. -/
theorem relay_empty_stream_witness :
    (∀ c ∈ [""], c = "")
      ∧ (get_stream { messages := [], session_id := "s" } [""] none).events = []
      ∧ (get_stream { messages := [], session_id := "s" } [""] none).history
          = { messages := [], session_id := "s" } :=
  ⟨by decide,
   (relay_empty_stream_emits_nothing_persists_nothing ⟨[], "s"⟩ [""] (by decide)).1,
   (relay_empty_stream_emits_nothing_persists_nothing ⟨[], "s"⟩ [""] (by decide)).2⟩

/-- Counterexample to claim C4 as stated: on the provider delta sequence
`[some ""]` the streaming completion client `_stream_response` forwards the
empty fragment, so its output is NOT a sequence of only non-empty texts. -/
theorem stream_client_forwards_empty_fragment :
    OpenAIService.stream_response [some ""] = [""]
      ∧ ¬(∀ c ∈ OpenAIService.stream_response [some ""], c ≠ "") :=
  ⟨rfl, by decide⟩

/-- Claim C4 (amended): the streaming completion client skips exactly the null
fragments the provider yields (its output is the sequence of non-null delta
texts, in order, empty strings included); empty fragments are instead skipped
by the streaming relay, so no empty chunk is ever forwarded downstream to the
event-stream consumer. -/
theorem stream_client_skips_null_and_relay_skips_empty
    (deltas : List (Option String)) (hist : MessageHistory) (failure : Option String) :
    OpenAIService.stream_response deltas = deltas.reduceOption
      ∧ ∀ e ∈ (get_stream hist (OpenAIService.stream_response deltas) failure).events,
          e.chunk ≠ "" := by
  constructor
  · induction deltas with
    | nil => rfl
    | cons d rest ih => cases d <;> simp [OpenAIService.stream_response, List.reduceOption, ih]
  · intro e he
    rw [get_stream_events, streamLoop_spec] at he
    obtain ⟨c, hc, rfl⟩ := List.mem_map.mp he
    simpa using (List.mem_filter.mp hc).2

/-- Claim C3: constructing a completion configuration succeeds exactly when
`0 <= temperature <= 2` and `0 <= top_p <= 1`; any failure is an
`InvalidConfigError` raised by the constructor itself (`__post_init__`), i.e.
at construction time, before any network call can be attempted with the
configuration; and every successfully constructed configuration satisfies the
bounds. -/
theorem completion_config_validated_at_construction
    (model : String) (t p pp fp : ℚ) (s : Bool) :
    ((∃ cfg, CompletionConfig.make model t p s pp fp = Except.ok cfg)
        ↔ (0 ≤ t ∧ t ≤ 2) ∧ (0 ≤ p ∧ p ≤ 1))
      ∧ (∀ e, CompletionConfig.make model t p s pp fp = Except.error e →
            ∃ m, e = ChatError.InvalidConfigError m)
      ∧ (∀ cfg, CompletionConfig.make model t p s pp fp = Except.ok cfg →
            (0 ≤ cfg.temperature ∧ cfg.temperature ≤ 2)
              ∧ (0 ≤ cfg.top_p ∧ cfg.top_p ≤ 1)) := by
  by_cases h1 : 0 ≤ t ∧ t ≤ 2
  · by_cases h2 : 0 ≤ p ∧ p ≤ 1
    · refine ⟨?_, ?_, ?_⟩
      · simp [CompletionConfig.make, h1, h2]
      · intro e he
        simp [CompletionConfig.make, h1, h2] at he
      · intro cfg hcfg
        simp [CompletionConfig.make, h1, h2] at hcfg
        rw [← hcfg]
        exact ⟨h1, h2⟩
    · refine ⟨?_, ?_, ?_⟩
      · simp [CompletionConfig.make, h1, h2]
      · intro e he
        simp [CompletionConfig.make, h1, h2] at he
        exact ⟨_, he.symm⟩
      · intro cfg hcfg
        simp [CompletionConfig.make, h1, h2] at hcfg
  · refine ⟨?_, ?_, ?_⟩
    · simp [CompletionConfig.make, h1]
    · intro e he
      simp [CompletionConfig.make, h1] at he
      exact ⟨_, he.symm⟩
    · intro cfg hcfg
      simp [CompletionConfig.make, h1] at hcfg

/-- Witness for claim C3: temperature 5/2 = 2.5 and top_p -1/10 = -0.1 each
raise `InvalidConfigError` at construction, and a valid configuration is
constructible. -/
theorem completion_config_witness :
    CompletionConfig.make "gpt-4o" (mkRat 5 2) (mkRat 1 2) false 0 0
        = Except.error (ChatError.InvalidConfigError "Temperature must be between 0 and 2")
      ∧ CompletionConfig.make "gpt-4o" (mkRat 1 2) (mkRat (-1) 10) false 0 0
        = Except.error (ChatError.InvalidConfigError "Top_p must be between 0 and 1")
      ∧ ((0 ≤ (mkRat 1 2 : ℚ) ∧ (mkRat 1 2 : ℚ) ≤ 2)
          ∧ (0 ≤ (mkRat 1 2 : ℚ) ∧ (mkRat 1 2 : ℚ) ≤ 1)) :=
  ⟨rfl, rfl,
   (completion_config_validated_at_construction "gpt-4o" (mkRat 1 2) (mkRat 1 2) 0 0 false).2.2
     { model := "gpt-4o", temperature := mkRat 1 2, top_p := mkRat 1 2,
       stream := false, presence_penalty := 0, frequency_penalty := 0 } rfl⟩

/-- Counterexample to claim C6 as stated: the role string "USER" is not one of
{system, user, assistant}, yet `add_message` does not fail on it — the code
lowercases the role before validating, so "USER" is accepted and appended with
role `user`. -/
theorem add_message_accepts_uppercase_role :
    ¬("USER" = "system" ∨ "USER" = "user" ∨ "USER" = "assistant")
      ∧ (MessageHistory.mk [] "s").add_message "USER" "hi" "" none
        = Except.ok
            ({ messages := [{ role := Role.user, content := "hi", session_id := some "s",
                              user_id := "", tags := [] }],
               session_id := "s" },
             { role := Role.user, content := "hi", session_id := some "s",
               user_id := "", tags := [] }) :=
  ⟨by decide, rfl⟩

/-- Claim C6 (amended): for every history, role string and content,
`add_message` fails with `InvalidRoleError` if and only if the lowercased role
is not one of {system, user, assistant}; when the lowercased role is valid it
constructs a new `Message` with that role and content, appends it as the new
last element of the history (leaving all earlier messages unchanged), and
returns that message. -/
theorem add_message_validates_lowercased_role
    (h : MessageHistory) (role content user_id : String) (tags : Option (List String)) :
    (h.add_message role content user_id tags = Except.error ChatError.InvalidRoleError
        ↔ ¬(pyLower role = "system" ∨ pyLower role = "user" ∨ pyLower role = "assistant"))
      ∧ ∀ r, roleOfString (pyLower role) = some r →
          h.add_message role content user_id tags =
            Except.ok
              ({ messages := h.messages ++
                  [{ role := r, content := content, session_id := some h.session_id,
                     user_id := user_id, tags := tags.getD [] }],
                 session_id := h.session_id },
               { role := r, content := content, session_id := some h.session_id,
                 user_id := user_id, tags := tags.getD [] }) := by
  unfold MessageHistory.add_message roleOfString
  by_cases e1 : pyLower role = "system"
  · simp [e1]
  · by_cases e2 : pyLower role = "user"
    · simp [e1, e2]
    · by_cases e3 : pyLower role = "assistant"
      · simp [e1, e2, e3]
      · simp [e1, e2, e3]

/-- Witness for amended claim C6 at the concrete role string "ASSISTANT". -/
theorem add_message_lowercased_role_witness :
    (MessageHistory.mk [] "s").add_message "ASSISTANT" "ok" "u" none
      = Except.ok
          ({ messages := [{ role := Role.assistant, content := "ok", session_id := some "s",
                            user_id := "u", tags := [] }],
             session_id := "s" },
           { role := Role.assistant, content := "ok", session_id := some "s",
             user_id := "u", tags := [] }) :=
  (add_message_validates_lowercased_role ⟨[], "s"⟩ "ASSISTANT" "ok" "u" none).2
    Role.assistant rfl

/-- Witness for claim C1 at the concrete upstream `["Hel", "lo"]`. -/
theorem relay_emits_witness :
    (get_stream { messages := [], session_id := "s" } ["Hel", "lo"] none).events
        = [{ chunk := "Hel", session_id := "s" }, { chunk := "lo", session_id := "s" }]
      ∧ (get_stream { messages := [], session_id := "s" } ["Hel", "lo"] none).history.messages
        = [{ role := Role.assistant, content := String.join ["Hel", "lo"],
             session_id := some "s", user_id := "", tags := [] }]
      ∧ (get_stream { messages := [], session_id := "s" } ["Hel", "lo"] none).error = none :=
  relay_emits_all_chunks_in_order_and_persists_concatenation
    ⟨[], "s"⟩ ["Hel", "lo"] (by decide) (by decide)

/-- Witness for amended claim C4 at the concrete deltas `[some "a", none]`. -/
theorem stream_client_witness :
    OpenAIService.stream_response [some "a", none] = List.reduceOption [some "a", none]
      ∧ ({ chunk := "a", session_id := "s" } : SSEEvent).chunk ≠ "" :=
  ⟨(stream_client_skips_null_and_relay_skips_empty [some "a", none] ⟨[], "s"⟩ none).1,
   (stream_client_skips_null_and_relay_skips_empty [some "a", none] ⟨[], "s"⟩ none).2
     { chunk := "a", session_id := "s" } (by decide)⟩

/-- Claim C7: a POST to /chat with body message "Hello" and no session id,
where the freshly generated uuid `newSid` is not yet registered and the
upstream completion returns the non-empty text `resp`, returns the new session
id together with that non-empty response, and an immediately following GET
/conversations/newSid returns exactly three messages in order: the system
persona message, user("Hello"), and assistant(resp). -/
theorem chat_new_session_three_messages
    (store : Store) (newSid resp : String)
    (hfresh : Store.find store newSid = none) (hresp : resp ≠ "") :
    (chat store (some "Hello") none newSid resp).1 = ChatResult.ok resp newSid
      ∧ resp ≠ ""
      ∧ get_conversation (chat store (some "Hello") none newSid resp).2 newSid
        = ConversationResult.ok newSid
            [("system", systemPrompt), ("user", "Hello"), ("assistant", resp)] := by
  refine ⟨rfl, hresp, ?_⟩
  have key : (chat store (some "Hello") none newSid resp).2
      = Store.set (Store.set store newSid (freshHistory newSid)) newSid
          (((freshHistory newSid).addMessageD "user" "Hello").addMessageD "assistant" resp) :=
    rfl
  rw [key, get_conversation_eq _ _ _ (find_set_self _ _ _)]
  rfl

/-- Witness for claim C7 on the empty store with uuid "u1" and response "Hi!". -/
theorem chat_new_session_witness :
    (chat [] (some "Hello") none "u1" "Hi!").1 = ChatResult.ok "Hi!" "u1"
      ∧ "Hi!" ≠ ""
      ∧ get_conversation (chat [] (some "Hello") none "u1" "Hi!").2 "u1"
        = ConversationResult.ok "u1"
            [("system", systemPrompt), ("user", "Hello"), ("assistant", "Hi!")] :=
  chat_new_session_three_messages [] "u1" "Hi!" rfl (by decide)

/-- Claim C8: a POST to /chat whose message field is missing or empty returns
status 400 with the error body "Message is required", and the session store is
returned unchanged — no session is created or registered, so in particular the
set of session identifiers is unchanged. -/
theorem chat_missing_or_empty_message_rejected
    (store : Store) (session_id : Option String) (newSid resp : String) :
    chat store none session_id newSid resp
        = (ChatResult.badRequest "Message is required", store)
      ∧ chat store (some "") session_id newSid resp
        = (ChatResult.badRequest "Message is required", store)
      ∧ (chat store none session_id newSid resp).1.status = 400
      ∧ (chat store (some "") session_id newSid resp).1.status = 400 :=
  ⟨rfl, rfl, rfl, rfl⟩

/-- Claim C10: on the synchronous /chat endpoint the assistant response is
appended to the session history unconditionally — here shown with the
completion text equal to the empty string, which is still persisted as an
assistant message — whereas the streaming relay never persists an empty
assistant turn (an all-empty chunk stream leaves the history unchanged). -/
theorem chat_persists_empty_assistant_unlike_relay
    (store : Store) (m newSid : String) (hm : m ≠ "")
    (hist : MessageHistory) (upstream : List String) (he : ∀ c ∈ upstream, c = "") :
    get_conversation (chat store (some m) none newSid "").2 newSid
        = ConversationResult.ok newSid
            [("system", systemPrompt), ("user", m), ("assistant", "")]
      ∧ (get_stream hist upstream none).history = hist := by
  constructor
  · have step : chat store (some m) none newSid ""
        = if m = "" then (ChatResult.badRequest "Message is required", store)
          else (ChatResult.ok "" newSid,
            Store.set (Store.set store newSid (freshHistory newSid)) newSid
              (((freshHistory newSid).addMessageD "user" m).addMessageD "assistant" "")) := rfl
    have key : (chat store (some m) none newSid "").2
        = Store.set (Store.set store newSid (freshHistory newSid)) newSid
            (((freshHistory newSid).addMessageD "user" m).addMessageD "assistant" "") := by
      rw [step, if_neg hm]
    rw [key, get_conversation_eq _ _ _ (find_set_self _ _ _)]
    rfl
  · exact get_stream_all_empty_history hist upstream he

/-- Witness for claim C10: an empty completion on /chat is persisted, while an
empty stream leaves the streaming history untouched. -/
theorem chat_persists_empty_assistant_witness :
    get_conversation (chat [] (some "Ping") none "u2" "").2 "u2"
        = ConversationResult.ok "u2"
            [("system", systemPrompt), ("user", "Ping"), ("assistant", "")]
      ∧ (get_stream { messages := [], session_id := "s" } [] none).history
        = { messages := [], session_id := "s" } :=
  chat_persists_empty_assistant_unlike_relay [] "Ping" "u2" (by decide) ⟨[], "s"⟩ [] (by decide)
